import Mathlib

/-!
Verification of the IstoriaStudio generation-serving core, shallowly embedded
from the Python sources:

* `app/image_gen.py` — resolution budgeter (`_snap_dim`,
  `_maybe_downscale_for_budget`), engine lifecycle (`_load_pipe`,
  `_load_pipe_cpu_fp32`), safe-run wrapper (`_run_pipe_safe`), orchestration
  and storage dispatch (`generate_image_key_or_url`);
* `app/services/s3_storage.py` — `upload_png_and_return_key`;
* `app/api/generated_asset/utils_quota.py` — `enforce_monthly_quota`;
* `app/api/generated_asset/routes.py` — `generate_asset_endpoint`.

Modelling conventions.  Machine integers are `Nat`.  The Python float
computation `int(width * scale)` with `scale = (max_area / req_area) ** 0.5`
is embedded in exact arithmetic: `int(w * sqrt(A / R)) = ⌊√(w²·A/R)⌋ =
Nat.sqrt (w * w * A / R)` (floor of the exact real square root; the floating
point evaluation in CPython agrees except possibly at values within one ulp
of an integer, and all concrete inputs used below are checked to agree).
The megapixel ceiling is carried as its pixel area `int(ceiling * 1e6)`.
Python `round` (round-half-to-even) is embedded faithfully in `snap_dim`.
The external inference engine is an oracle: each invocation consumes the next
entry of an outcome script.  Random tokens (`uuid4().hex`), timestamps and
the presigner are parameters.
-/

namespace Istoria

/-- Embeds `_snap_dim(n, base=64)` from `app/image_gen.py`:
`max(base, int(round(n / base) * base))` where Python `round` is
round-half-to-even.  `n / 64` is exact in binary floating point for all
realistic sizes, so the rounding is exactly round-half-to-even on `n/64`. -/
def snap_dim (n : Nat) : Nat :=
  let q := n / 64
  let r := n % 64
  let rounded :=
    if 2 * r < 64 then q
    else if 64 < 2 * r then q + 1
    else if q % 2 = 0 then q else q + 1
  max 64 (rounded * 64)

/-- The exact-arithmetic value of `int(width * scale)` in
`_maybe_downscale_for_budget`, where `scale = (max_area / float(req_area)) ** 0.5`
and `req_area = width * height`: `⌊ width · √(max_area / req_area) ⌋`. -/
def fitted_dim (w h maxArea : Nat) : Nat :=
  Nat.sqrt (w * w * maxArea / (w * h))

/-- Embeds `_maybe_downscale_for_budget(width, height, max_megapixels)` with
`maxArea = int(max_megapixels * 1_000_000)`.  Returns `(w, h, did_downscale)`. -/
def maybe_downscale_for_budget (width height maxArea : Nat) : Nat × Nat × Bool :=
  if width * height ≤ maxArea then
    (snap_dim width, snap_dim height, false)
  else
    (snap_dim (fitted_dim width height maxArea),
     snap_dim (fitted_dim height width maxArea), true)

/-- The render plan of the spec: render size, upscale target, downscale flag. -/
structure RenderPlan where
  render_w : Nat
  render_h : Nat
  target_w : Nat
  target_h : Nat
  downscaled : Bool
deriving Repr, DecidableEq

/-- The budgeting phase of `generate_image_key_or_url` (lines 183–190):
snap the requested dimensions (`req_w`, `req_h`), then apply
`_maybe_downscale_for_budget` to the snapped dimensions against the
configured ceiling.  Target dimensions are the snapped request. -/
def plan_render (width height maxArea : Nat) : RenderPlan :=
  let req_w := snap_dim width
  let req_h := snap_dim height
  let p := maybe_downscale_for_budget req_w req_h maxArea
  ⟨p.1, p.2.1, req_w, req_h, p.2.2⟩

/-! ### Safe-run wrapper and degradation orchestrator (`image_gen.py`) -/

/-- Message classes distinguished by the `RuntimeError` handler of `_run_pipe_safe`:
`oomLike` covers "CUDA out of memory" / "CUDNN_STATUS_ALLOC_FAILED",
`halfLike` covers "not implemented for Half" / fp16-on-CPU messages, and
`otherRuntime` is any other `RuntimeError` message (re-raised). -/
inductive ErrClass
  | oomLike
  | halfLike
  | otherRuntime
deriving Repr, DecidableEq

/-- Outcome of one invocation of an inference engine: a successful render,
a `RuntimeError` of a given message class, or a non-`RuntimeError` exception. -/
inductive RunOutcome
  | ok
  | errRT (c : ErrClass)
  | errOther
deriving Repr, DecidableEq

/-- The two engine tiers: the preferred pipe built by `_load_pipe` and the
dedicated CPU/float32 pipe built by `_load_pipe_cpu_fp32`. -/
inductive Tier
  | primary
  | cpuFp32
deriving Repr, DecidableEq

/-- An image carries only its pixel dimensions; an engine invocation at
`(w, h)` produces an image of exactly those dimensions. -/
structure Image where
  w : Nat
  h : Nat
deriving Repr, DecidableEq

/-- A record of one engine invocation: which pipe it ran on and at what size. -/
structure Attempt where
  tier : Tier
  w : Nat
  h : Nat
deriving Repr, DecidableEq

/-- PIL resampling filters that `Image.resize` accepts; the code passes
`Image.LANCZOS`. -/
inductive ResampleFilter
  | nearest
  | bilinear
  | bicubic
  | lanczos
deriving Repr, DecidableEq

/-- `PIL.Image.resize((w, h), filter)`: the result has exactly the requested
dimensions. -/
def resize (_img : Image) (w h : Nat) (_f : ResampleFilter) : Image := ⟨w, h⟩

/-- Engine oracle: invocations consume the head of an outcome script; an
exhausted script behaves as a raising engine. -/
def nextOutcome : List RunOutcome → RunOutcome × List RunOutcome
  | [] => (RunOutcome.errOther, [])
  | o :: rest => (o, rest)

/-- Embeds `_run_pipe_safe(pipe, **kw)`: try the given pipe; on a
`RuntimeError` whose message marks a CUDA OOM or an fp16-on-CPU problem,
retry once on the dedicated CPU/float32 pipe with the same kwargs (so at the
same size); any other error, and any error of the retry, propagates.
Returns (image or propagated failure, invocation log, remaining script). -/
def run_pipe_safe (t : Tier) (w h : Nat) (s : List RunOutcome) :
    Option Image × List Attempt × List RunOutcome :=
  let o := nextOutcome s
  match o.1 with
  | RunOutcome.ok => (some ⟨w, h⟩, [⟨t, w, h⟩], o.2)
  | RunOutcome.errRT ErrClass.oomLike =>
      let o2 := nextOutcome o.2
      (match o2.1 with | RunOutcome.ok => some ⟨w, h⟩ | _ => none,
       [⟨t, w, h⟩, ⟨Tier.cpuFp32, w, h⟩], o2.2)
  | RunOutcome.errRT ErrClass.halfLike =>
      let o2 := nextOutcome o.2
      (match o2.1 with | RunOutcome.ok => some ⟨w, h⟩ | _ => none,
       [⟨t, w, h⟩, ⟨Tier.cpuFp32, w, h⟩], o2.2)
  | RunOutcome.errRT ErrClass.otherRuntime => (none, [⟨t, w, h⟩], o.2)
  | RunOutcome.errOther => (none, [⟨t, w, h⟩], o.2)

/-- Result of the rendering part of `generate_image_key_or_url` (lines
181–238), instrumented with the invocation log, the resize calls made, and
the size handed to the outer fallback run when it was taken. -/
structure GenResult where
  image : Option Image
  attempts : List Attempt
  resizes : List (Nat × Nat × ResampleFilter)
  fbSize : Option (Nat × Nat)
deriving Repr, DecidableEq

/-- Embeds the try/except/else rendering logic of `generate_image_key_or_url`:
snap the request, proactively budget against the configured ceiling, run the
primary pipe through `_run_pipe_safe`; if that raises, rebudget against
`min(ceiling, 1.0)` megapixels and run the CPU/float32 pipe through
`_run_pipe_safe`; upscale to the snapped request size with LANCZOS when the
produced image is smaller; if the fallback also raises, the failure
propagates (image = none). -/
def generate_render (width height maxArea : Nat) (script : List RunOutcome) :
    GenResult :=
  let req_w := snap_dim width
  let req_h := snap_dim height
  let p := maybe_downscale_for_budget req_w req_h maxArea
  let safe_w := p.1
  let safe_h := p.2.1
  let did := p.2.2
  let r1 := run_pipe_safe Tier.primary safe_w safe_h script
  match r1.1 with
  | some img =>
      if did = true ∧ (safe_w ≠ req_w ∨ safe_h ≠ req_h) then
        { image := some (resize img req_w req_h ResampleFilter.lanczos),
          attempts := r1.2.1,
          resizes := [(req_w, req_h, ResampleFilter.lanczos)],
          fbSize := none }
      else
        { image := some img, attempts := r1.2.1, resizes := [], fbSize := none }
  | none =>
      let fbArea := min maxArea 1000000
      let q := maybe_downscale_for_budget req_w req_h fbArea
      let fb_w := q.1
      let fb_h := q.2.1
      let r2 := run_pipe_safe Tier.cpuFp32 fb_w fb_h r1.2.2
      match r2.1 with
      | some img =>
          if fb_w ≠ req_w ∨ fb_h ≠ req_h then
            { image := some (resize img req_w req_h ResampleFilter.lanczos),
              attempts := r1.2.1 ++ r2.2.1,
              resizes := [(req_w, req_h, ResampleFilter.lanczos)],
              fbSize := some (fb_w, fb_h) }
          else
            { image := some img, attempts := r1.2.1 ++ r2.2.1, resizes := [],
              fbSize := some (fb_w, fb_h) }
      | none =>
          { image := none, attempts := r1.2.1 ++ r2.2.1, resizes := [],
            fbSize := some (fb_w, fb_h) }

/-! ### Storage (`s3_storage.py` and the tail of `generate_image_key_or_url`) -/

/-- Embeds `upload_png_and_return_key(project_id, image_bytes)`: the S3 key
is `f"generated/{project_id}/{uuid4().hex}.png"`; the fresh random token is
a parameter. -/
def upload_png_and_return_key (project_id token : String) : String :=
  "generated/" ++ project_id ++ "/" ++ token ++ ".png"

/-- The local-mode filename: `datetime.utcnow().strftime("%Y%m%d_%H%M%S_%f") + ".png"`;
the formatted timestamp is a parameter.  It is a function of the clock only. -/
def local_filename (timestamp : String) : String := timestamp ++ ".png"

/-- The local-mode URL: `f"{base_url}/generated/{project_id}/{filename}"`,
or without the project segment when `project_id` is absent. -/
def local_url (base : String) (project_id : Option String) (filename : String) :
    String :=
  match project_id with
  | some pid => base ++ "/generated/" ++ pid ++ "/" ++ filename
  | none => base ++ "/generated/" ++ filename

/-- The pair returned by `generate_image_key_or_url`: `(identifier, is_key)`. -/
structure StoreResult where
  value : String
  is_key : Bool
deriving Repr, DecidableEq

/-- Embeds the upload/save tail of `generate_image_key_or_url` (lines
240–261): with an S3 endpoint configured, upload under a uuid4-suffixed key
namespaced by the project (defaulting to "no-project") and return
`(key, True)`; otherwise save under a timestamp filename and return the
direct URL with `(url, False)`. -/
def store_image (s3Configured : Bool) (project_id : Option String)
    (token timestamp base : String) : StoreResult :=
  if s3Configured then
    ⟨upload_png_and_return_key (project_id.getD "no-project") token, true⟩
  else
    ⟨local_url base project_id (local_filename timestamp), false⟩

/-- Embeds the whole `generate_image_key_or_url`: render (with fallback),
then store; a rendering failure propagates as `none`. -/
def generate_image_key_or_url (width height maxArea : Nat)
    (script : List RunOutcome) (s3Configured : Bool)
    (project_id : Option String) (token timestamp base : String) :
    Option StoreResult :=
  match (generate_render width height maxArea script).image with
  | none => none
  | some _ => some (store_image s3Configured project_id token timestamp base)

/-! ### Quota gate (`utils_quota.py`) -/

/-- Embeds `enforce_monthly_quota(db, user_id)`.  The two reads are
parameters: `limit` is `get_active_plan_limit` (None when the user has no
active subscription/plan) and `used` is `get_user_month_count`.  The result
is the detail string of the raised 403, or `none` when admitted.  The
function only reads; it performs no writes. -/
def enforce_monthly_quota (limit : Option Nat) (used : Nat) : Option String :=
  match limit with
  | none => some "No active subscription or plan found."
  | some l => if l ≤ used then some "Generation limit reached for your plan." else none

/-- A persisted `GeneratedAsset` row, with the fields the quota count reads. -/
structure AssetRow where
  user_id : String
  url : String
  created_at : Nat
  asset_type_id : String
deriving Repr, DecidableEq

/-- Embeds `get_user_month_count`: count rows of the user created at or after
the start of the current month. -/
def get_user_month_count (db : List AssetRow) (uid : String) (month_start : Nat) :
    Nat :=
  (db.filter (fun r => r.user_id == uid && decide (month_start ≤ r.created_at))).length

/-! ### Generation endpoint (`routes.py`, `generate_asset_endpoint`) -/

/-- Outcome of a call to `POST /generate`: a 403 quota rejection with its
detail, a propagated rendering failure, or a 200 payload
`{"url", "id", "expiresIn"}` together with the resulting asset table. -/
inductive EndpointOut
  | rejected (detail : String)
  | renderFailed
  | ok (url : String) (new_asset_id : Option String) (expiresIn : Option Nat)
      (db : List AssetRow)
deriving Repr, DecidableEq

/-- Embeds `generate_asset_endpoint`: enforce the quota, generate and store
the image, presign when the stored value is an S3 key, and persist a
`GeneratedAsset` row only when the payload carries an `asset_type_id`.
`presign` is the external `presign_get_url`; `new_row_id` is the id the
database assigns to an inserted row; `now` is the insertion timestamp. -/
def generate_asset_endpoint (limit : Option Nat) (used : Nat)
    (width height maxArea : Nat) (script : List RunOutcome)
    (s3Configured : Bool) (project_id : String) (token timestamp base : String)
    (presign : String → Nat → String) (asset_type_id : Option String)
    (user_id new_row_id : String) (now : Nat) (db : List AssetRow) :
    EndpointOut :=
  match enforce_monthly_quota limit used with
  | some d => EndpointOut.rejected d
  | none =>
    match generate_image_key_or_url width height maxArea script s3Configured
        (some project_id) token timestamp base with
    | none => EndpointOut.renderFailed
    | some sr =>
      let public_for_now := if sr.is_key then presign sr.value 3600 else sr.value
      match asset_type_id with
      | some atid =>
          EndpointOut.ok public_for_now (some new_row_id)
            (if sr.is_key then some 3600 else none)
            (db ++ [⟨user_id, sr.value, now, atid⟩])
      | none =>
          EndpointOut.ok public_for_now none
            (if sr.is_key then some 3600 else none) db

/-! ### Engine lifecycle (`_load_pipe`, `_load_pipe_cpu_fp32`) -/

/-- The module-level state: the two memoized pipes (`_PIPE`, `_PIPE_CPU`) as
handle ids, plus a counter of construction events
(`StableDiffusionPipeline.from_pretrained` calls). -/
structure EngineState where
  pipe : Option Nat
  pipe_cpu : Option Nat
  built : Nat
deriving Repr, DecidableEq

/-- Process start: no pipe constructed yet. -/
def freshState : EngineState := ⟨none, none, 0⟩

/-- Embeds `_load_pipe()`: return the cached handle if present, otherwise
construct a fresh one, cache it and return it. -/
def load_pipe (s : EngineState) : Nat × EngineState :=
  match s.pipe with
  | some hh => (hh, s)
  | none => (s.built, { s with pipe := some s.built, built := s.built + 1 })

/-- Embeds `_load_pipe_cpu_fp32()`: same memoization for the CPU/fp32 pipe. -/
def load_pipe_cpu_fp32 (s : EngineState) : Nat × EngineState :=
  match s.pipe_cpu with
  | some hh => (hh, s)
  | none => (s.built, { s with pipe_cpu := some s.built, built := s.built + 1 })

/-- The `get(tier)` operation of the lifecycle manager. -/
def get_tier : Tier → EngineState → Nat × EngineState
  | Tier.primary => load_pipe
  | Tier.cpuFp32 => load_pipe_cpu_fp32

/-- The cache slot of a tier. -/
def tier_cache : Tier → EngineState → Option Nat
  | Tier.primary, s => s.pipe
  | Tier.cpuFp32, s => s.pipe_cpu

/-- `n` successive `get(tier)` calls, returning the handles in order. -/
def get_tier_n (t : Tier) : Nat → EngineState → List Nat × EngineState
  | 0, s => ([], s)
  | Nat.succ n, s =>
      let r := get_tier t s
      let rest := get_tier_n t n r.2
      (r.1 :: rest.1, rest.2)

end Istoria

namespace Istoria

/-! ### Helper lemmas -/

/-- Every snapped dimension is a multiple of the alignment unit 64. -/
theorem snap_dim_dvd (n : Nat) : 64 ∣ snap_dim n := by
  simp only [snap_dim]
  split_ifs <;> omega

/-- Every snapped dimension is at least 64. -/
theorem le_snap_dim (n : Nat) : 64 ≤ snap_dim n := by
  simp only [snap_dim]
  exact Nat.le_max_left _ _

/-- Snapping is the identity on multiples of 64 that are at least 64. -/
theorem snap_dim_fixed {n : Nat} (hdvd : 64 ∣ n) (hle : 64 ≤ n) :
    snap_dim n = n := by
  simp only [snap_dim]
  split_ifs <;> omega

/-- Snapping (round to nearest) adds at most 32, except that tiny values are
pulled up to the minimum 64. -/
theorem snap_dim_le (n : Nat) : snap_dim n ≤ max 64 (n + 32) := by
  simp only [snap_dim]
  split_ifs <;> omega

end Istoria

namespace Istoria

/-- Compute `fitted_dim` at concrete arguments through the square-root
characterization. -/
theorem fitted_dim_eq (w h A v N : Nat) (hN : w * w * A / (w * h) = N)
    (h1 : v * v ≤ N) (h2 : N < (v + 1) * (v + 1)) : fitted_dim w h A = v := by
  unfold fitted_dim
  rw [hN]
  exact (Nat.eq_sqrt.mpr ⟨h1, h2⟩).symm

/-- The exactly-fitted dimensions respect the pixel budget: before the final
re-snap, the scaled width times the scaled height is at most `maxArea`. -/
theorem fitted_dim_mul_le (w h A : Nat) (hw : 0 < w) (hh : 0 < h) :
    fitted_dim w h A * fitted_dim h w A ≤ A := by
  have hR : 0 < w * h := Nat.mul_pos hw hh
  have h1 : Nat.sqrt (w * w * A / (w * h)) * Nat.sqrt (w * w * A / (w * h)) ≤
      w * w * A / (w * h) := Nat.sqrt_le _
  have h2 : Nat.sqrt (h * h * A / (h * w)) * Nat.sqrt (h * h * A / (h * w)) ≤
      h * h * A / (h * w) := Nat.sqrt_le _
  have h3 : (w * w * A / (w * h)) * (h * h * A / (h * w)) ≤
      (w * w * A) * (h * h * A) / ((w * h) * (h * w)) :=
    Nat.div_mul_div_le _ _ _ _
  have h4 : (w * w * A) * (h * h * A) = ((w * h) * (h * w)) * (A * A) := by ring
  have h5 : ((w * h) * (h * w)) * (A * A) / ((w * h) * (h * w)) = A * A :=
    Nat.mul_div_cancel_left _ (Nat.mul_pos hR (Nat.mul_pos hh hw))
  have hsq : (fitted_dim w h A * fitted_dim h w A) *
      (fitted_dim w h A * fitted_dim h w A) ≤ A * A := by
    have hmm : (fitted_dim w h A * fitted_dim h w A) *
        (fitted_dim w h A * fitted_dim h w A) =
        (Nat.sqrt (w * w * A / (w * h)) * Nat.sqrt (w * w * A / (w * h))) *
        (Nat.sqrt (h * h * A / (h * w)) * Nat.sqrt (h * h * A / (h * w))) := by
      unfold fitted_dim
      ring
    rw [hmm]
    calc (Nat.sqrt (w * w * A / (w * h)) * Nat.sqrt (w * w * A / (w * h))) *
        (Nat.sqrt (h * h * A / (h * w)) * Nat.sqrt (h * h * A / (h * w)))
        ≤ (w * w * A / (w * h)) * (h * h * A / (h * w)) :=
          Nat.mul_le_mul h1 h2
      _ ≤ (w * w * A) * (h * h * A) / ((w * h) * (h * w)) := h3
      _ = A * A := by rw [h4, h5]
  exact Nat.mul_self_le_mul_self_iff.mp hsq

/-- `_run_pipe_safe` makes at most two engine invocations. -/
theorem run_pipe_safe_attempts_le (t : Tier) (w h : Nat) (s : List RunOutcome) :
    (run_pipe_safe t w h s).2.1.length ≤ 2 := by
  unfold run_pipe_safe
  rcases nextOutcome s with ⟨o, s1⟩
  cases o with
  | ok => simp
  | errRT c => cases c <;> simp
  | errOther => simp

/-- Every invocation made by `_run_pipe_safe` is at the size it was given. -/
theorem run_pipe_safe_attempts_size (t : Tier) (w h : Nat) (s : List RunOutcome) :
    ∀ a ∈ (run_pipe_safe t w h s).2.1, a.w = w ∧ a.h = h := by
  unfold run_pipe_safe
  rcases nextOutcome s with ⟨o, s1⟩
  cases o with
  | ok => simp
  | errRT c => cases c <;> simp
  | errOther => simp

end Istoria

namespace Istoria

/-- Concrete square-root evaluation used by the budget counterexamples:
the exactly fitted dimension for a 1984×1984 request against a 1.0 MP
ceiling is 1000. -/
theorem fitted_dim_1984_1MP : fitted_dim 1984 1984 1000000 = 1000 :=
  fitted_dim_eq 1984 1984 1000000 1000 1000000 (by norm_num) (by norm_num)
    (by norm_num)

/-- Concrete square-root evaluation: the fitted dimension for a 1024×1024
request against a 1.0 MP ceiling is 1000. -/
theorem fitted_dim_1024_1MP : fitted_dim 1024 1024 1000000 = 1000 :=
  fitted_dim_eq 1024 1024 1000000 1000 1000000 (by norm_num) (by norm_num)
    (by norm_num)

/-- C1, counterexample.  With requested width = height = 2000 and ceiling
c = 1 (so c·1,000,000 = 1,000,000 < 2000·2000), the plan renders at
1024×1024: re-snapping the fitted 1000×1000 up to the 64-alignment makes
render_width · render_height = 1,048,576 exceed the ceiling, so the claimed
invariant render_width · render_height ≤ c·1,000,000 is false. -/
theorem plan_render_area_bound_cx :
    1000000 < 2000 * 2000 ∧
    plan_render 2000 2000 1000000 = ⟨1024, 1024, 1984, 1984, true⟩ ∧
    1000000 < 1024 * 1024 := by
  refine ⟨by norm_num, ?_, by norm_num⟩
  have h2000 : snap_dim 2000 = 1984 := by decide
  simp only [plan_render, maybe_downscale_for_budget, h2000]
  norm_num [fitted_dim_1984_1MP]
  decide

/-- C1 (amended).  When the snapped request exceeds the pixel budget `A`,
the plan downscales; the target dimensions equal the snapped request, both
render dimensions are multiples of 64, and the render dimensions are the
re-snapped exactly-fitted dimensions: the fitted product is within the
budget, and each render dimension exceeds its fitted value by at most the
alignment slack (round-to-nearest adds at most 32; the minimum is 64).  The
render area itself can exceed `A` by that slack, as the counterexample
shows. -/
theorem plan_render_budget_amended (w h A : Nat)
    (hover : A < snap_dim w * snap_dim h) :
    (plan_render w h A).downscaled = true ∧
    64 ∣ (plan_render w h A).render_w ∧ 64 ∣ (plan_render w h A).render_h ∧
    (plan_render w h A).target_w = snap_dim w ∧
    (plan_render w h A).target_h = snap_dim h ∧
    (plan_render w h A).render_w = snap_dim (fitted_dim (snap_dim w) (snap_dim h) A) ∧
    (plan_render w h A).render_h = snap_dim (fitted_dim (snap_dim h) (snap_dim w) A) ∧
    fitted_dim (snap_dim w) (snap_dim h) A * fitted_dim (snap_dim h) (snap_dim w) A ≤ A ∧
    (plan_render w h A).render_w ≤ max 64 (fitted_dim (snap_dim w) (snap_dim h) A + 32) ∧
    (plan_render w h A).render_h ≤ max 64 (fitted_dim (snap_dim h) (snap_dim w) A + 32) := by
  have hnle : ¬(snap_dim w * snap_dim h ≤ A) := Nat.not_le.mpr hover
  have hplan : plan_render w h A =
      ⟨snap_dim (fitted_dim (snap_dim w) (snap_dim h) A),
       snap_dim (fitted_dim (snap_dim h) (snap_dim w) A),
       snap_dim w, snap_dim h, true⟩ := by
    simp only [plan_render, maybe_downscale_for_budget, if_neg hnle]
  rw [hplan]
  exact ⟨rfl, snap_dim_dvd _, snap_dim_dvd _, rfl, rfl, rfl, rfl,
    fitted_dim_mul_le _ _ _ (Nat.lt_of_lt_of_le (by norm_num) (le_snap_dim w))
      (Nat.lt_of_lt_of_le (by norm_num) (le_snap_dim h)),
    snap_dim_le _, snap_dim_le _⟩

/-- Witness for the amended C1 theorem at the concrete over-budget request
2000×2000 with a 1.0 MP ceiling. -/
theorem plan_render_budget_amended_witness :
    1000000 < snap_dim 2000 * snap_dim 2000 ∧
    ((plan_render 2000 2000 1000000).downscaled = true ∧
     64 ∣ (plan_render 2000 2000 1000000).render_w ∧
     64 ∣ (plan_render 2000 2000 1000000).render_h ∧
     (plan_render 2000 2000 1000000).target_w = snap_dim 2000 ∧
     (plan_render 2000 2000 1000000).target_h = snap_dim 2000 ∧
     (plan_render 2000 2000 1000000).render_w =
       snap_dim (fitted_dim (snap_dim 2000) (snap_dim 2000) 1000000) ∧
     (plan_render 2000 2000 1000000).render_h =
       snap_dim (fitted_dim (snap_dim 2000) (snap_dim 2000) 1000000) ∧
     fitted_dim (snap_dim 2000) (snap_dim 2000) 1000000 *
       fitted_dim (snap_dim 2000) (snap_dim 2000) 1000000 ≤ 1000000 ∧
     (plan_render 2000 2000 1000000).render_w ≤
       max 64 (fitted_dim (snap_dim 2000) (snap_dim 2000) 1000000 + 32) ∧
     (plan_render 2000 2000 1000000).render_h ≤
       max 64 (fitted_dim (snap_dim 2000) (snap_dim 2000) 1000000 + 32)) :=
  ⟨by decide, plan_render_budget_amended 2000 2000 1000000 (by decide)⟩

/-- C5, counterexample.  The requested area 1000·1000 is within the 1.0 MP
ceiling, yet the budgeter marks downscaled = true: the code compares the
snapped area 1024·1024 = 1,048,576 against the ceiling, not the requested
area. -/
theorem plan_render_no_downscale_cx :
    1000 * 1000 ≤ 1000000 ∧
    plan_render 1000 1000 1000000 = ⟨1024, 1024, 1024, 1024, true⟩ := by
  refine ⟨by norm_num, ?_⟩
  have h1000 : snap_dim 1000 = 1024 := by decide
  simp only [plan_render, maybe_downscale_for_budget, h1000]
  norm_num [fitted_dim_1024_1MP]
  decide

/-- C5 (amended).  When the SNAPPED request fits the pixel budget
(snap(w)·snap(h) ≤ A), the budgeter marks downscaled = false and the render
size equals the target size, both being the snapped request. -/
theorem plan_render_no_downscale_amended (w h A : Nat)
    (hle : snap_dim w * snap_dim h ≤ A) :
    plan_render w h A = ⟨snap_dim w, snap_dim h, snap_dim w, snap_dim h, false⟩ := by
  simp only [plan_render, maybe_downscale_for_budget, if_pos hle]
  rw [snap_dim_fixed (snap_dim_dvd w) (le_snap_dim w),
      snap_dim_fixed (snap_dim_dvd h) (le_snap_dim h)]

/-- Witness for the amended C5 theorem: the example request of the spec,
800×1200 against a 1.0 MP ceiling snaps to 768×1216 (0.93 MP) and is not
downscaled. -/
theorem plan_render_no_downscale_amended_witness :
    snap_dim 800 * snap_dim 1200 ≤ 1000000 ∧
    plan_render 800 1200 1000000 =
      ⟨snap_dim 800, snap_dim 1200, snap_dim 800, snap_dim 1200, false⟩ :=
  ⟨by decide, plan_render_no_downscale_amended 800 1200 1000000 (by decide)⟩

end Istoria

namespace Istoria

/-- C3.  The quota gate rejects with the "no plan" detail exactly when the
user has no active subscription (regardless of usage); given an active plan
with limit L and usage U it rejects with the "limit reached" detail exactly
when U ≥ L and admits exactly when U < L; in particular L=5, U=5 rejects
and L=5, U=4 admits.  The gate only reads (it is a pure function of the two
reads), so admission performs no writes. -/
theorem enforce_monthly_quota_spec :
    (∀ used, enforce_monthly_quota none used =
      some "No active subscription or plan found.") ∧
    (∀ L used, enforce_monthly_quota (some L) used ≠
      some "No active subscription or plan found.") ∧
    (∀ L used, (enforce_monthly_quota (some L) used =
      some "Generation limit reached for your plan." ↔ L ≤ used)) ∧
    (∀ L used, (enforce_monthly_quota (some L) used = none ↔ used < L)) ∧
    enforce_monthly_quota (some 5) 5 =
      some "Generation limit reached for your plan." ∧
    enforce_monthly_quota (some 5) 4 = none := by
  have hred : ∀ L used, enforce_monthly_quota (some L) used =
      if L ≤ used then some "Generation limit reached for your plan." else none :=
    fun L used => rfl
  refine ⟨fun used => rfl, ?_, ?_, ?_, by decide, by decide⟩
  · intro L used
    rw [hred]
    split_ifs with hcond
    · decide
    · simp
  · intro L used
    rw [hred]
    split_ifs with hcond
    · simp [hcond]
    · simp [hcond]
  · intro L used
    rw [hred]
    split_ifs with hcond <;> simp <;> omega

/-- Witness exercising `enforce_monthly_quota_spec` at its concrete
instances (limit 5, usage 4 admits). -/
theorem enforce_monthly_quota_spec_witness :
    enforce_monthly_quota (some 5) 4 = none :=
  enforce_monthly_quota_spec.2.2.2.2.2

/-- C4, counterexample.  In direct-url (local filesystem) mode the stored
reference is derived solely from the formatted wall-clock time: two store
calls at the same clock instant with DIFFERENT freshly generated random
tokens produce the identical reference, so keys are not collision-resistant
in this mode. -/
theorem store_image_time_collision_cx :
    ("aaaa" : String) ≠ "bbbb" ∧
    store_image false (some "proj") "aaaa" "20260101_120000_000000" "http://app" =
      store_image false (some "proj") "bbbb" "20260101_120000_000000" "http://app" :=
  ⟨by decide, rfl⟩

/-- C4 (amended).  In durable (S3) mode the object key embeds the fresh
uuid4 token, and distinct tokens give distinct keys; in direct-url (local)
mode the stored reference is independent of the random token — it is a
function of the timestamp alone, so simultaneous calls collide. -/
theorem store_image_token_amended (pid : Option String) (t t' ts base : String)
    (hne : t ≠ t') :
    (store_image true pid t ts base).value ≠ (store_image true pid t' ts base).value ∧
    (store_image false pid t ts base).value = (store_image false pid t' ts base).value := by
  refine ⟨?_, rfl⟩
  simp only [store_image, upload_png_and_return_key, if_pos]
  intro he
  apply hne
  have hd := congrArg String.data he
  simp only [String.data_append, List.append_assoc] at hd
  exact String.ext (List.append_cancel_right
    (List.append_cancel_left (List.append_cancel_left (List.append_cancel_left hd))))

/-- Witness for the amended C4 theorem at two concrete distinct tokens. -/
theorem store_image_token_amended_witness :
    ("tok1" : String) ≠ "tok2" ∧
    ((store_image true (some "proj") "tok1" "ts" "http://app").value ≠
      (store_image true (some "proj") "tok2" "ts" "http://app").value ∧
     (store_image false (some "proj") "tok1" "ts" "http://app").value =
      (store_image false (some "proj") "tok2" "ts" "http://app").value) :=
  ⟨by decide, store_image_token_amended (some "proj") "tok1" "tok2" "ts" "http://app"
    (by decide)⟩

end Istoria

namespace Istoria

/-- Once the cache slot of a tier is filled, every later `get` for that tier
returns the cached handle and leaves the state unchanged. -/
theorem get_tier_cached (t : Tier) (s : EngineState) (hdl : Nat)
    (hc : tier_cache t s = some hdl) : get_tier t s = (hdl, s) := by
  cases t with
  | primary =>
      simp only [tier_cache] at hc
      simp [get_tier, load_pipe, hc]
  | cpuFp32 =>
      simp only [tier_cache] at hc
      simp [get_tier, load_pipe_cpu_fp32, hc]

/-- Iterating `get` on a cached tier yields `n` copies of the cached handle
and no state change (in particular no construction). -/
theorem get_tier_n_cached (t : Tier) (hdl : Nat) (n : Nat) (s : EngineState)
    (hc : tier_cache t s = some hdl) :
    get_tier_n t n s = (List.replicate n hdl, s) := by
  induction n with
  | zero => simp [get_tier_n, List.replicate]
  | succ n ih =>
      simp only [get_tier_n, get_tier_cached t s hdl hc, ih, List.replicate]

/-- C9.  For each tier, requesting the engine N ≥ 1 times from a fresh
process state constructs exactly once (`built = 1`) and returns N references
to one and the same handle: the first `get` constructs and caches it, every
later `get` returns the identical cached handle without construction. -/
theorem engine_singleton_per_tier (t : Tier) (n : Nat) (hn : 0 < n) :
    (get_tier_n t n freshState).1 =
      List.replicate n (get_tier t freshState).1 ∧
    (get_tier_n t n freshState).2.built = 1 := by
  obtain ⟨m, rfl⟩ : ∃ m, n = m + 1 := ⟨n - 1, by omega⟩
  cases t with
  | primary =>
      have hget : get_tier Tier.primary freshState = (0, ⟨some 0, none, 1⟩) := rfl
      have hcache : tier_cache Tier.primary ⟨some 0, none, 1⟩ = some 0 := rfl
      simp only [get_tier_n, hget, get_tier_n_cached Tier.primary 0 m _ hcache,
        List.replicate]
      exact ⟨trivial, trivial⟩
  | cpuFp32 =>
      have hget : get_tier Tier.cpuFp32 freshState = (0, ⟨none, some 0, 1⟩) := rfl
      have hcache : tier_cache Tier.cpuFp32 ⟨none, some 0, 1⟩ = some 0 := rfl
      simp only [get_tier_n, hget, get_tier_n_cached Tier.cpuFp32 0 m _ hcache,
        List.replicate]
      exact ⟨trivial, trivial⟩

/-- Witness for the engine singleton theorem: three primary-tier requests
from a fresh process. -/
theorem engine_singleton_per_tier_witness :
    0 < 3 ∧
    ((get_tier_n Tier.primary 3 freshState).1 =
      List.replicate 3 (get_tier Tier.primary freshState).1 ∧
     (get_tier_n Tier.primary 3 freshState).2.built = 1) :=
  ⟨by decide, engine_singleton_per_tier Tier.primary 3 (by decide)⟩

end Istoria

namespace Istoria

/-- A successful `_run_pipe_safe` returns an image of exactly the size it
was invoked at. -/
theorem run_pipe_safe_image (t : Tier) (w h : Nat) (s : List RunOutcome)
    (img : Image) (himg : (run_pipe_safe t w h s).1 = some img) :
    img = ⟨w, h⟩ := by
  unfold run_pipe_safe at himg
  rcases s with _ | ⟨o, rest⟩
  · simp [nextOutcome] at himg
  · cases o with
    | ok => simp [nextOutcome] at himg; simp [himg.symm]
    | errRT c =>
        cases c with
        | oomLike =>
            simp only [nextOutcome] at himg
            rcases rest with _ | ⟨o2, rest2⟩
            · simp [nextOutcome] at himg
            · cases o2 <;> simp [nextOutcome] at himg
              simp [himg.symm]
        | halfLike =>
            simp only [nextOutcome] at himg
            rcases rest with _ | ⟨o2, rest2⟩
            · simp [nextOutcome] at himg
            · cases o2 <;> simp [nextOutcome] at himg
              simp [himg.symm]
        | otherRuntime => simp [nextOutcome] at himg
    | errOther => simp [nextOutcome] at himg

end Istoria

namespace Istoria

/-- C2 (amended).  The orchestrator makes at most one outer degrade-and-retry:
the primary safe-run plus, when it raises, one fallback safe-run at the
reduced size; each safe-run invokes an engine at most twice (the second
invocation being the in-wrapper swap to the CPU/float32 pipe at the same
size on recognized resource/precision errors).  Hence at most four engine
invocations in total, only two when no outer fallback is taken, and if the
fallback safe-run also raises the failure propagates with no further
attempts. -/
theorem generate_render_retry_amended (w h A : Nat) (script : List RunOutcome) :
    (generate_render w h A script).attempts.length ≤ 4 ∧
    ((generate_render w h A script).fbSize = none →
      (generate_render w h A script).attempts.length ≤ 2) := by
  simp only [generate_render]
  split
  · split_ifs <;>
      exact ⟨Nat.le_trans (run_pipe_safe_attempts_le _ _ _ _) (by norm_num),
        fun _ => run_pipe_safe_attempts_le _ _ _ _⟩
  · split
    · split_ifs <;>
        refine ⟨?_, fun hfb => by simp at hfb⟩ <;>
        · simp only [List.length_append]
          exact Nat.le_trans
            (Nat.add_le_add (run_pipe_safe_attempts_le _ _ _ _)
              (run_pipe_safe_attempts_le _ _ _ _)) (by norm_num)
    · refine ⟨?_, fun hfb => by simp at hfb⟩
      simp only [List.length_append]
      exact Nat.le_trans
        (Nat.add_le_add (run_pipe_safe_attempts_le _ _ _ _)
          (run_pipe_safe_attempts_le _ _ _ _)) (by norm_num)

end Istoria

namespace Istoria

/-- Witness for the amended retry-count theorem at a concrete in-budget
request with a succeeding primary attempt. -/
theorem generate_render_retry_amended_witness :
    (generate_render 640 640 1000000 [RunOutcome.ok]).attempts.length ≤ 4 ∧
    ((generate_render 640 640 1000000 [RunOutcome.ok]).fbSize = none →
      (generate_render 640 640 1000000 [RunOutcome.ok]).attempts.length ≤ 2) :=
  generate_render_retry_amended 640 640 1000000 [RunOutcome.ok]

/-- Budgeting a snapped 1984×1984 request against the 1.0 MP fallback
ceiling yields 1024×1024 with the downscale flag set. -/
theorem mdfb_1984_1MP :
    maybe_downscale_for_budget 1984 1984 1000000 = (1024, 1024, true) := by
  have hnle : ¬(1984 * 1984 ≤ 1000000) := by norm_num
  simp only [maybe_downscale_for_budget, if_neg hnle, fitted_dim_1984_1MP]
  decide

/-- C2, counterexample.  A primary-tier CUDA OOM followed by two further
engine errors produces THREE engine invocations before the terminal
failure — the safe-run wrapper retries on the CPU/float32 pipe at the
unreduced size before the reduced-size fallback of the orchestrator — so
"exactly one fallback render attempt after the primary attempt fails" is
false. -/
theorem generate_render_retry_cx :
    generate_render 2000 2000 8000000
        [RunOutcome.errRT ErrClass.oomLike, RunOutcome.errRT ErrClass.otherRuntime,
         RunOutcome.errRT ErrClass.otherRuntime] =
      { image := none,
        attempts := [⟨Tier.primary, 1984, 1984⟩, ⟨Tier.cpuFp32, 1984, 1984⟩,
                     ⟨Tier.cpuFp32, 1024, 1024⟩],
        resizes := [], fbSize := some (1024, 1024) } ∧
    2 < (generate_render 2000 2000 8000000
        [RunOutcome.errRT ErrClass.oomLike, RunOutcome.errRT ErrClass.otherRuntime,
         RunOutcome.errRT ErrClass.otherRuntime]).attempts.length := by
  have h2000 : snap_dim 2000 = 1984 := by decide
  have hp : maybe_downscale_for_budget 1984 1984 8000000 = (1984, 1984, false) := by
    decide
  have hmin : min 8000000 1000000 = 1000000 := by decide
  constructor
  · simp only [generate_render, h2000, hp, hmin, mdfb_1984_1MP]
    decide
  · simp only [generate_render, h2000, hp, hmin, mdfb_1984_1MP]
    decide

end Istoria

namespace Istoria

/-- C6, counterexample.  The primary tier raises a CUDA OOM, and the
fallback engine (the CPU/float32 pipe) is invoked by the in-wrapper swap
of `_run_pipe_safe` at the UNreduced size 1984×1984 — area 3,936,256, far above
the stricter ceiling min(8.0 MP, 1.0 MP) = 1,000,000 — and that invocation
produces the result.  So a primary runtime failure does not imply the
fallback engine runs at a size budgeted against the stricter ceiling. -/
theorem fallback_ceiling_cx :
    generate_render 2000 2000 8000000
        [RunOutcome.errRT ErrClass.oomLike, RunOutcome.ok] =
      { image := some ⟨1984, 1984⟩,
        attempts := [⟨Tier.primary, 1984, 1984⟩, ⟨Tier.cpuFp32, 1984, 1984⟩],
        resizes := [], fbSize := none } ∧
    min 8000000 1000000 < 1984 * 1984 := by
  have h2000 : snap_dim 2000 = 1984 := by decide
  have hp : maybe_downscale_for_budget 1984 1984 8000000 = (1984, 1984, false) := by
    decide
  constructor
  · simp only [generate_render, h2000, hp]
    decide
  · decide

end Istoria

namespace Istoria

/-- C6 (amended).  Whenever the whole primary safe-run raises (so the
outer fallback of the orchestrator is taken), the fallback run is invoked at the
size budgeted from the snapped request against the stricter ceiling
min(configured ceiling, 1.0 MP); every engine invocation of the request is
either at the primary budgeted size or at that fallback size; and when the
stricter ceiling forces a downscale, the fitted fallback area is within the
stricter ceiling with each fallback dimension a multiple of 64 exceeding its
fitted value only by the alignment slack (so the fallback render area can
overshoot the stricter ceiling only by that slack — and when the primary
failure is absorbed by the in-wrapper swap, the CPU engine runs at the
unreduced size, as the counterexample shows). -/
theorem fallback_plan_amended (w h A : Nat) (script : List RunOutcome) (fw fh : Nat)
    (hfb : (generate_render w h A script).fbSize = some (fw, fh)) :
    fw = (plan_render w h (min A 1000000)).render_w ∧
    fh = (plan_render w h (min A 1000000)).render_h ∧
    (∀ a ∈ (generate_render w h A script).attempts,
      (a.w = (plan_render w h A).render_w ∧ a.h = (plan_render w h A).render_h) ∨
      (a.w = fw ∧ a.h = fh)) ∧
    (min A 1000000 < snap_dim w * snap_dim h →
      fitted_dim (snap_dim w) (snap_dim h) (min A 1000000) *
        fitted_dim (snap_dim h) (snap_dim w) (min A 1000000) ≤ min A 1000000 ∧
      64 ∣ fw ∧ 64 ∣ fh ∧
      fw ≤ max 64 (fitted_dim (snap_dim w) (snap_dim h) (min A 1000000) + 32) ∧
      fh ≤ max 64 (fitted_dim (snap_dim h) (snap_dim w) (min A 1000000) + 32)) := by
  simp only [generate_render] at hfb ⊢
  rcases hr1 : (run_pipe_safe Tier.primary
      (maybe_downscale_for_budget (snap_dim w) (snap_dim h) A).1
      (maybe_downscale_for_budget (snap_dim w) (snap_dim h) A).2.1 script).1 with _ | img1
  case some =>
    simp only [hr1] at hfb
    split_ifs at hfb
  case none =>
    simp only [hr1] at hfb ⊢
    have hcond : min A 1000000 < snap_dim w * snap_dim h →
        fitted_dim (snap_dim w) (snap_dim h) (min A 1000000) *
          fitted_dim (snap_dim h) (snap_dim w) (min A 1000000) ≤ min A 1000000 ∧
        64 ∣ (maybe_downscale_for_budget (snap_dim w) (snap_dim h) (min A 1000000)).1 ∧
        64 ∣ (maybe_downscale_for_budget (snap_dim w) (snap_dim h) (min A 1000000)).2.1 ∧
        (maybe_downscale_for_budget (snap_dim w) (snap_dim h) (min A 1000000)).1 ≤
          max 64 (fitted_dim (snap_dim w) (snap_dim h) (min A 1000000) + 32) ∧
        (maybe_downscale_for_budget (snap_dim w) (snap_dim h) (min A 1000000)).2.1 ≤
          max 64 (fitted_dim (snap_dim h) (snap_dim w) (min A 1000000) + 32) := by
      intro hlt
      have hq : maybe_downscale_for_budget (snap_dim w) (snap_dim h) (min A 1000000) =
          (snap_dim (fitted_dim (snap_dim w) (snap_dim h) (min A 1000000)),
           snap_dim (fitted_dim (snap_dim h) (snap_dim w) (min A 1000000)), true) := by
        simp only [maybe_downscale_for_budget, if_neg (Nat.not_le.mpr hlt)]
      rw [hq]
      exact ⟨fitted_dim_mul_le _ _ _
          (Nat.lt_of_lt_of_le (by norm_num) (le_snap_dim w))
          (Nat.lt_of_lt_of_le (by norm_num) (le_snap_dim h)),
        snap_dim_dvd _, snap_dim_dvd _, snap_dim_le _, snap_dim_le _⟩
    have hmem : ∀ a ∈ (run_pipe_safe Tier.primary
          (maybe_downscale_for_budget (snap_dim w) (snap_dim h) A).1
          (maybe_downscale_for_budget (snap_dim w) (snap_dim h) A).2.1 script).2.1 ++
        (run_pipe_safe Tier.cpuFp32
          (maybe_downscale_for_budget (snap_dim w) (snap_dim h) (min A 1000000)).1
          (maybe_downscale_for_budget (snap_dim w) (snap_dim h) (min A 1000000)).2.1
          (run_pipe_safe Tier.primary
            (maybe_downscale_for_budget (snap_dim w) (snap_dim h) A).1
            (maybe_downscale_for_budget (snap_dim w) (snap_dim h) A).2.1 script).2.2).2.1,
        (a.w = (plan_render w h A).render_w ∧ a.h = (plan_render w h A).render_h) ∨
        (a.w = (maybe_downscale_for_budget (snap_dim w) (snap_dim h) (min A 1000000)).1 ∧
         a.h = (maybe_downscale_for_budget (snap_dim w) (snap_dim h) (min A 1000000)).2.1) := by
      intro a ha
      rcases List.mem_append.mp ha with hl | hr
      · exact Or.inl (run_pipe_safe_attempts_size _ _ _ _ a hl)
      · exact Or.inr (run_pipe_safe_attempts_size _ _ _ _ a hr)
    rcases hr2 : (run_pipe_safe Tier.cpuFp32
        (maybe_downscale_for_budget (snap_dim w) (snap_dim h) (min A 1000000)).1
        (maybe_downscale_for_budget (snap_dim w) (snap_dim h) (min A 1000000)).2.1
        (run_pipe_safe Tier.primary
          (maybe_downscale_for_budget (snap_dim w) (snap_dim h) A).1
          (maybe_downscale_for_budget (snap_dim w) (snap_dim h) A).2.1 script).2.2).1
        with _ | img2
    · simp only [hr2] at hfb ⊢
      rw [Option.some.injEq, Prod.mk.injEq] at hfb
      obtain ⟨hfw, hfh⟩ := hfb
      subst hfw
      subst hfh
      exact ⟨rfl, rfl, hmem, hcond⟩
    · simp only [hr2] at hfb ⊢
      split_ifs at hfb ⊢ <;>
      · rw [Option.some.injEq, Prod.mk.injEq] at hfb
        obtain ⟨hfw, hfh⟩ := hfb
        subst hfw
        subst hfh
        exact ⟨rfl, rfl, hmem, hcond⟩

end Istoria

namespace Istoria

/-- Witness for the amended fallback-size theorem: a primary-tier
non-recoverable RuntimeError on a 2000×2000 request with an 8.0 MP
configured ceiling; the outer fallback runs at 1024×1024, budgeted against
min(8.0 MP, 1.0 MP). -/
theorem fallback_plan_amended_witness :
    (generate_render 2000 2000 8000000
        [RunOutcome.errRT ErrClass.otherRuntime, RunOutcome.ok]).fbSize =
      some (1024, 1024) ∧
    (1024 = (plan_render 2000 2000 (min 8000000 1000000)).render_w ∧
     1024 = (plan_render 2000 2000 (min 8000000 1000000)).render_h ∧
     (∀ a ∈ (generate_render 2000 2000 8000000
          [RunOutcome.errRT ErrClass.otherRuntime, RunOutcome.ok]).attempts,
        (a.w = (plan_render 2000 2000 8000000).render_w ∧
         a.h = (plan_render 2000 2000 8000000).render_h) ∨
        (a.w = 1024 ∧ a.h = 1024)) ∧
     (min 8000000 1000000 < snap_dim 2000 * snap_dim 2000 →
       fitted_dim (snap_dim 2000) (snap_dim 2000) (min 8000000 1000000) *
         fitted_dim (snap_dim 2000) (snap_dim 2000) (min 8000000 1000000) ≤
           min 8000000 1000000 ∧
       64 ∣ (1024 : Nat) ∧ 64 ∣ (1024 : Nat) ∧
       1024 ≤ max 64 (fitted_dim (snap_dim 2000) (snap_dim 2000) (min 8000000 1000000) + 32) ∧
       1024 ≤ max 64 (fitted_dim (snap_dim 2000) (snap_dim 2000) (min 8000000 1000000) + 32))) := by
  have h2000 : snap_dim 2000 = 1984 := by decide
  have hp : maybe_downscale_for_budget 1984 1984 8000000 = (1984, 1984, false) := by
    decide
  have hmin : min 8000000 1000000 = 1000000 := by decide
  have hfb : (generate_render 2000 2000 8000000
      [RunOutcome.errRT ErrClass.otherRuntime, RunOutcome.ok]).fbSize =
      some (1024, 1024) := by
    simp only [generate_render, h2000, hp, hmin, mdfb_1984_1MP]
    decide
  exact ⟨hfb, fallback_plan_amended 2000 2000 8000000 _ 1024 1024 hfb⟩

end Istoria

namespace Istoria

/-- Snapping is idempotent. -/
theorem snap_dim_idem (n : Nat) : snap_dim (snap_dim n) = snap_dim n :=
  snap_dim_fixed (snap_dim_dvd n) (le_snap_dim n)

/-- C7.  Whenever generation succeeds, the returned image has exactly the
target dimensions — the requested size snapped to the 64-alignment —
whether or not a downscale occurred at either tier; and every resize the
orchestrator performs upscales to exactly those target dimensions using the
LANCZOS (high-quality) resampling filter. -/
theorem generated_image_dims (w h A : Nat) (script : List RunOutcome)
    (img : Image) (himg : (generate_render w h A script).image = some img) :
    img.w = snap_dim w ∧ img.h = snap_dim h ∧
    ∀ r ∈ (generate_render w h A script).resizes,
      r = (snap_dim w, snap_dim h, ResampleFilter.lanczos) := by
  simp only [generate_render] at himg ⊢
  rcases hr1 : (run_pipe_safe Tier.primary
      (maybe_downscale_for_budget (snap_dim w) (snap_dim h) A).1
      (maybe_downscale_for_budget (snap_dim w) (snap_dim h) A).2.1 script).1 with _ | img1
  case some =>
    have himg1 : img1 = ⟨(maybe_downscale_for_budget (snap_dim w) (snap_dim h) A).1,
        (maybe_downscale_for_budget (snap_dim w) (snap_dim h) A).2.1⟩ :=
      run_pipe_safe_image _ _ _ _ _ hr1
    simp only [hr1] at himg ⊢
    split_ifs at himg ⊢ with hcnd
    · rw [Option.some.injEq] at himg
      subst himg
      exact ⟨rfl, rfl, by simp⟩
    · rw [Option.some.injEq] at himg
      subst himg
      rw [himg1]
      by_cases hb : snap_dim w * snap_dim h ≤ A
      · have hP : maybe_downscale_for_budget (snap_dim w) (snap_dim h) A =
            (snap_dim (snap_dim w), snap_dim (snap_dim h), false) := by
          simp only [maybe_downscale_for_budget, if_pos hb]
        rw [hP]
        exact ⟨snap_dim_idem w, snap_dim_idem h, by simp⟩
      · have hP2 : (maybe_downscale_for_budget (snap_dim w) (snap_dim h) A).2.2 = true := by
          simp only [maybe_downscale_for_budget, if_neg hb]
        push_neg at hcnd
        obtain ⟨h1, h2⟩ := hcnd hP2
        exact ⟨h1, h2, by simp⟩
  case none =>
    simp only [hr1] at himg ⊢
    rcases hr2 : (run_pipe_safe Tier.cpuFp32
        (maybe_downscale_for_budget (snap_dim w) (snap_dim h) (min A 1000000)).1
        (maybe_downscale_for_budget (snap_dim w) (snap_dim h) (min A 1000000)).2.1
        (run_pipe_safe Tier.primary
          (maybe_downscale_for_budget (snap_dim w) (snap_dim h) A).1
          (maybe_downscale_for_budget (snap_dim w) (snap_dim h) A).2.1 script).2.2).1
        with _ | img2
    · simp [hr2] at himg
    · have himg2 : img2 =
          ⟨(maybe_downscale_for_budget (snap_dim w) (snap_dim h) (min A 1000000)).1,
           (maybe_downscale_for_budget (snap_dim w) (snap_dim h) (min A 1000000)).2.1⟩ :=
        run_pipe_safe_image _ _ _ _ _ hr2
      simp only [hr2] at himg ⊢
      split_ifs at himg ⊢ with hcnd
      · rw [Option.some.injEq] at himg
        subst himg
        exact ⟨rfl, rfl, by simp⟩
      · rw [Option.some.injEq] at himg
        subst himg
        rw [himg2]
        push_neg at hcnd
        exact ⟨hcnd.1, hcnd.2, by simp⟩

end Istoria

namespace Istoria

/-- Witness for the image-dimension theorem: the example request of the spec,
800×1200 (snapped by the code to 768×1216) with a succeeding primary
attempt returns a 768×1216 image. -/
theorem generated_image_dims_witness :
    (generate_render 800 1200 1000000 [RunOutcome.ok]).image = some ⟨768, 1216⟩ ∧
    ((Image.mk 768 1216).w = snap_dim 800 ∧
     (Image.mk 768 1216).h = snap_dim 1200 ∧
     ∀ r ∈ (generate_render 800 1200 1000000 [RunOutcome.ok]).resizes,
       r = (snap_dim 800, snap_dim 1200, ResampleFilter.lanczos)) := by
  have himg : (generate_render 800 1200 1000000 [RunOutcome.ok]).image =
      some ⟨768, 1216⟩ := by decide
  exact ⟨himg,
    generated_image_dims 800 1200 1000000 [RunOutcome.ok] ⟨768, 1216⟩ himg⟩

end Istoria

namespace Istoria

/-- C8.  For every admitted, successfully rendered generation: with a
durable store configured the stored value is the S3 key namespaced by the
project id with the fresh unique token as suffix, and the endpoint responds
with the presigned URL for that key and expiresIn = 3600; with no durable
store the stored value is the direct URL built from the configured base URL,
the project scope and the timestamp filename, and the endpoint responds with
that URL and expiresIn = null. -/
theorem endpoint_storage_modes
    (limit : Option Nat) (used w h A : Nat) (script : List RunOutcome)
    (pid token ts base : String) (presign : String → Nat → String)
    (atid : Option String) (uid nid : String) (now : Nat) (db : List AssetRow)
    (hquota : enforce_monthly_quota limit used = none)
    (hrender : (generate_render w h A script).image.isSome = true) :
    (∃ i d, generate_asset_endpoint limit used w h A script true pid token ts base
        presign atid uid nid now db =
      EndpointOut.ok (presign ("generated/" ++ pid ++ "/" ++ token ++ ".png") 3600)
        i (some 3600) d) ∧
    (∃ i d, generate_asset_endpoint limit used w h A script false pid token ts base
        presign atid uid nid now db =
      EndpointOut.ok (base ++ "/generated/" ++ pid ++ "/" ++ (ts ++ ".png"))
        i none d) := by
  obtain ⟨img, himg⟩ := Option.isSome_iff_exists.mp hrender
  constructor
  · cases atid with
    | none =>
        refine ⟨none, db, ?_⟩
        simp [generate_asset_endpoint, hquota, generate_image_key_or_url, himg,
          store_image, upload_png_and_return_key]
    | some a =>
        refine ⟨some nid,
          db ++ [⟨uid, "generated/" ++ pid ++ "/" ++ token ++ ".png", now, a⟩], ?_⟩
        simp [generate_asset_endpoint, hquota, generate_image_key_or_url, himg,
          store_image, upload_png_and_return_key]
  · cases atid with
    | none =>
        refine ⟨none, db, ?_⟩
        simp [generate_asset_endpoint, hquota, generate_image_key_or_url, himg,
          store_image, local_url, local_filename]
    | some a =>
        refine ⟨some nid,
          db ++ [⟨uid, base ++ "/generated/" ++ pid ++ "/" ++ (ts ++ ".png"), now, a⟩], ?_⟩
        simp [generate_asset_endpoint, hquota, generate_image_key_or_url, himg,
          store_image, local_url, local_filename]

/-- C10.  A call to the generation endpoint whose payload omits
asset_type_id persists nothing: the image is still generated, stored and a
URL returned (with the response id null), but the asset table is returned
unchanged, so the current-period usage count the quota gate computes is
unchanged by the call — such generations never count toward the monthly
limit. -/
theorem no_record_without_asset_type
    (limit : Option Nat) (used w h A : Nat) (script : List RunOutcome)
    (s3 : Bool) (pid token ts base : String) (presign : String → Nat → String)
    (uid nid : String) (now : Nat) (db : List AssetRow)
    (hquota : enforce_monthly_quota limit used = none)
    (hrender : (generate_render w h A script).image.isSome = true) :
    ∃ u e db2, generate_asset_endpoint limit used w h A script s3 pid token ts base
        presign none uid nid now db = EndpointOut.ok u none e db2 ∧ db2 = db ∧
      ∀ ms, get_user_month_count db2 uid ms = get_user_month_count db uid ms := by
  obtain ⟨img, himg⟩ := Option.isSome_iff_exists.mp hrender
  cases s3 with
  | true =>
      refine ⟨presign ("generated/" ++ pid ++ "/" ++ token ++ ".png") 3600,
        some 3600, db, ?_, rfl, fun ms => rfl⟩
      simp [generate_asset_endpoint, hquota, generate_image_key_or_url, himg,
        store_image, upload_png_and_return_key]
  | false =>
      refine ⟨base ++ "/generated/" ++ pid ++ "/" ++ (ts ++ ".png"),
        none, db, ?_, rfl, fun ms => rfl⟩
      simp [generate_asset_endpoint, hquota, generate_image_key_or_url, himg,
        store_image, local_url, local_filename]

end Istoria

namespace Istoria

/-- Witness for the storage-mode theorem at a concrete admitted request. -/
theorem endpoint_storage_modes_witness :
    (∃ i d, generate_asset_endpoint (some 5) 0 640 640 1000000 [RunOutcome.ok]
        true "proj" "tok" "T" "http://app" (fun k _ => "signed:" ++ k)
        none "u1" "row1" 7 [] =
      EndpointOut.ok ((fun (k : String) (_ : Nat) => "signed:" ++ k)
          ("generated/" ++ "proj" ++ "/" ++ "tok" ++ ".png") 3600)
        i (some 3600) d) ∧
    (∃ i d, generate_asset_endpoint (some 5) 0 640 640 1000000 [RunOutcome.ok]
        false "proj" "tok" "T" "http://app" (fun k _ => "signed:" ++ k)
        none "u1" "row1" 7 [] =
      EndpointOut.ok ("http://app" ++ "/generated/" ++ "proj" ++ "/" ++ ("T" ++ ".png"))
        i none d) :=
  endpoint_storage_modes (some 5) 0 640 640 1000000 [RunOutcome.ok]
    "proj" "tok" "T" "http://app" (fun k _ => "signed:" ++ k) none "u1" "row1" 7 []
    (by decide) (by decide)

/-- Witness for the no-persistence theorem at a concrete admitted request
with asset_type_id omitted. -/
theorem no_record_without_asset_type_witness :
    ∃ u e db2, generate_asset_endpoint (some 5) 0 640 640 1000000 [RunOutcome.ok]
        true "proj" "tok" "T" "http://app" (fun k _ => "signed:" ++ k)
        none "u1" "row1" 7 [⟨"u1", "k0", 3, "a0"⟩] =
      EndpointOut.ok u none e db2 ∧ db2 = [⟨"u1", "k0", 3, "a0"⟩] ∧
      ∀ ms, get_user_month_count db2 "u1" ms =
        get_user_month_count [⟨"u1", "k0", 3, "a0"⟩] "u1" ms :=
  no_record_without_asset_type (some 5) 0 640 640 1000000 [RunOutcome.ok]
    true "proj" "tok" "T" "http://app" (fun k _ => "signed:" ++ k) "u1" "row1" 7
    [⟨"u1", "k0", 3, "a0"⟩] (by decide) (by decide)

end Istoria
